import Mathlib

/-!
Verification of the Razorpay webhook → email relay
(`src/api/razorpay-webhook.ts`).

The development shallowly embeds the runtime behaviour of the single source
file.  Strings of the JavaScript runtime are modelled as Lean `String`s, and
byte buffers (`Buffer`) as lists of naturals; `Buffer.from(string)` is
modelled as the list of code points, which agrees with UTF-8 on the ASCII
range and, for the signature comparison, yields the same boolean outcome as
the byte-level comparison on all inputs (UTF-8 encoding is injective, and a
length mismatch on either level makes the comparison false).  JavaScript
`undefined` is modelled by `Option.none` at the value level; JSON values by
an inductive `Json` type.  32-bit machine words are naturals kept below
`2 ^ 32` by explicit reduction.
-/

set_option maxRecDepth 100000

namespace Rzp

/-! ## Bytes and 32-bit words -/

/-- `Buffer.from(s)`: the bytes of a string (code-point model, exact on
ASCII, which covers every hex digest and every concrete input below). -/
def strToBytes (s : String) : List Nat :=
  s.data.map Char.toNat

/-- Right rotation of a 32-bit word (input assumed `< 2 ^ 32`). -/
def rotr32 (n x : Nat) : Nat :=
  (x >>> n) ||| ((x % (2 ^ n)) <<< (32 - n))

/-- Bitwise complement of a 32-bit word. -/
def not32 (x : Nat) : Nat :=
  x ^^^ 0xffffffff

/-- Addition modulo `2 ^ 32`. -/
def add32 (a b : Nat) : Nat :=
  (a + b) % (2 ^ 32)

/-! ## SHA-256 (the digest underlying `crypto.createHmac("sha256", …)`) -/

/-- The SHA-256 round constants (FIPS 180-4, written in decimal). -/
def shaK : List Nat :=
  [1116352408, 1899447441, 3049323471, 3921009573, 961987163, 1508970993,
   2453635748, 2870763221, 3624381080, 310598401, 607225278, 1426881987,
   1925078388, 2162078206, 2614888103, 3248222580, 3835390401, 4022224774,
   264347078, 604807628, 770255983, 1249150122, 1555081692, 1996064986,
   2554220882, 2821834349, 2952996808, 3210313671, 3336571891, 3584528711,
   113926993, 338241895, 666307205, 773529912, 1294757372, 1396182291,
   1695183700, 1986661051, 2177026350, 2456956037, 2730485921, 2820302411,
   3259730800, 3345764771, 3516065817, 3600352804, 4094571909, 275423344,
   430227734, 506948616, 659060556, 883997877, 958139571, 1322822218,
   1537002063, 1747873779, 1955562222, 2024104815, 2227730452, 2361852424,
   2428436474, 2756734187, 3204031479, 3329325298]

/-- The working state of the compression function. -/
structure Hash8 where
  a : Nat
  b : Nat
  c : Nat
  d : Nat
  e : Nat
  f : Nat
  g : Nat
  h : Nat
deriving Repr, DecidableEq

/-- The SHA-256 initial hash value (FIPS 180-4, written in decimal). -/
def shaInit : Hash8 :=
  ⟨1779033703, 3144134277, 1013904242, 2773480762,
   1359893119, 2600822924, 528734635, 1541459225⟩

/-- Small-sigma-0 of the message schedule. -/
def ssig0 (x : Nat) : Nat :=
  rotr32 7 x ^^^ rotr32 18 x ^^^ (x >>> 3)

/-- Small-sigma-1 of the message schedule. -/
def ssig1 (x : Nat) : Nat :=
  rotr32 17 x ^^^ rotr32 19 x ^^^ (x >>> 10)

/-- Big-sigma-0 of the round function. -/
def bsig0 (x : Nat) : Nat :=
  rotr32 2 x ^^^ rotr32 13 x ^^^ rotr32 22 x

/-- Big-sigma-1 of the round function. -/
def bsig1 (x : Nat) : Nat :=
  rotr32 6 x ^^^ rotr32 11 x ^^^ rotr32 25 x

/-- SHA-256 message padding: a `0x80` byte, zeros to 56 mod 64, then the
bit length as eight big-endian bytes. -/
def padMsg (msg : List Nat) : List Nat :=
  let L := msg.length
  let zeros := (119 - L % 64) % 64
  let bitLen := L * 8
  msg ++ [0x80] ++ List.replicate zeros 0 ++
    [(bitLen >>> 56) % 256, (bitLen >>> 48) % 256, (bitLen >>> 40) % 256,
     (bitLen >>> 32) % 256, (bitLen >>> 24) % 256, (bitLen >>> 16) % 256,
     (bitLen >>> 8) % 256, bitLen % 256]

/-- Big-endian bytes → 32-bit words (four bytes per word). -/
def bytesToWords : List Nat → List Nat
  | b0 :: b1 :: b2 :: b3 :: t =>
      ((b0 <<< 24) ||| (b1 <<< 16) ||| (b2 <<< 8) ||| b3) :: bytesToWords t
  | _ => []

/-- Words → 512-bit blocks of sixteen words each. -/
def wordsToBlocks : List Nat → List (List Nat)
  | w0 :: w1 :: w2 :: w3 :: w4 :: w5 :: w6 :: w7 ::
    w8 :: w9 :: w10 :: w11 :: w12 :: w13 :: w14 :: w15 :: t =>
      [w0, w1, w2, w3, w4, w5, w6, w7,
       w8, w9, w10, w11, w12, w13, w14, w15] :: wordsToBlocks t
  | _ => []

/-- Extend a 16-word block to the 64-word message schedule. -/
def schedule (block : List Nat) : List Nat :=
  (List.range 48).foldl
    (fun w _ =>
      let n := w.length
      w ++ [(ssig1 (w.getD (n - 2) 0) + w.getD (n - 7) 0 +
             ssig0 (w.getD (n - 15) 0) + w.getD (n - 16) 0) % (2 ^ 32)])
    block

/-- One round of the SHA-256 compression function. -/
def shaRound (s : Hash8) (kw : Nat × Nat) : Hash8 :=
  let t1 := (s.h + bsig1 s.e + ((s.e &&& s.f) ^^^ (not32 s.e &&& s.g)) +
             kw.1 + kw.2) % (2 ^ 32)
  let t2 := (bsig0 s.a + ((s.a &&& s.b) ^^^ (s.a &&& s.c) ^^^ (s.b &&& s.c)))
             % (2 ^ 32)
  ⟨(t1 + t2) % (2 ^ 32), s.a, s.b, s.c, (s.d + t1) % (2 ^ 32), s.e, s.f, s.g⟩

/-- Process one 512-bit block. -/
def compressBlock (H : Hash8) (block : List Nat) : Hash8 :=
  let w := schedule block
  let s := (shaK.zip w).foldl shaRound H
  ⟨add32 H.a s.a, add32 H.b s.b, add32 H.c s.c, add32 H.d s.d,
   add32 H.e s.e, add32 H.f s.f, add32 H.g s.g, add32 H.h s.h⟩

/-- One 32-bit word as four big-endian bytes. -/
def wordBytes (w : Nat) : List Nat :=
  [(w >>> 24) % 256, (w >>> 16) % 256, (w >>> 8) % 256, w % 256]

/-- SHA-256 of a byte sequence, as 32 digest bytes. -/
def sha256 (msg : List Nat) : List Nat :=
  let H := (wordsToBlocks (bytesToWords (padMsg msg))).foldl compressBlock shaInit
  wordBytes H.a ++ wordBytes H.b ++ wordBytes H.c ++ wordBytes H.d ++
  wordBytes H.e ++ wordBytes H.f ++ wordBytes H.g ++ wordBytes H.h

/-! ## HMAC-SHA256 and hex encoding -/

/-- HMAC-SHA256 over bytes (block size 64). -/
def hmacSha256 (key msg : List Nat) : List Nat :=
  let k0 := if 64 < key.length then sha256 key else key
  let k := k0 ++ List.replicate (64 - k0.length) 0
  let ipad := k.map (· ^^^ 0x36)
  let opad := k.map (· ^^^ 0x5c)
  sha256 (opad ++ sha256 (ipad ++ msg))

/-- One lowercase hex digit. -/
def hexDigit (n : Nat) : Char :=
  if n < 10 then Char.ofNat (48 + n) else Char.ofNat (87 + n)

/-- Lowercase hex encoding of a byte list (`.digest("hex")`). -/
def hexOfBytes (bs : List Nat) : String :=
  String.mk (bs.flatMap fun b => [hexDigit (b / 16 % 16), hexDigit (b % 16)])

/-- The hex HMAC-SHA256 digest the handler computes:
`crypto.createHmac("sha256", secret).update(rawBody).digest("hex")`. -/
def hmacHex (secret body : String) : String :=
  hexOfBytes (hmacSha256 (strToBytes secret) (strToBytes body))

/-! ## Signature verification -/

/-- `crypto.timingSafeEqual`: equality of equal-length buffers; throws on a
length mismatch (the `Except.error` branch). -/
def timingSafeEqual (a b : List Nat) : Except String Bool :=
  if a.length = b.length then .ok (decide (a = b))
  else .error "Input buffers must have the same byte length"

/-- JavaScript falsiness of an optional string (`!x`): absent or empty. -/
def jsFalsyStr (x : Option String) : Bool :=
  match x with
  | none => true
  | some s => s = ""

/-- `verifyRazorpaySignature` (source lines 31–48): reject a falsy
signature, compute the hex HMAC digest, reject a byte-length mismatch, then
compare in constant time.  A thrown exception would surface as
`Except.error`. -/
def verifyRazorpaySignature (rawBody : String) (signature : Option String)
    (secret : String) : Except String Bool :=
  if jsFalsyStr signature then .ok false
  else
    let expected := hmacHex secret rawBody
    let a := strToBytes expected
    let b := strToBytes (signature.getD "")
    if a.length ≠ b.length then .ok false
    else timingSafeEqual a b

/-- The boolean the handler branches on (the error case never occurs, as
proved below). -/
def getOk (e : Except String Bool) : Bool :=
  match e with
  | .ok b => b
  | .error _ => false

/-! ## JSON values and `JSON.parse`

JSON numbers are represented exactly as rationals (every JSON numeric
literal denotes `± m × 10 ^ e`); the double-precision rounding JavaScript
applies on top is not modelled — it is exact on every amount the handler
compares against. -/

/-- A parsed JSON value.  JavaScript `undefined` is `Option.none` one level
up, never a `Json`. -/
inductive Json where
  | null
  | bool (b : Bool)
  | num (q : Rat)
  | str (s : String)
  | arr (elems : List Json)
  | obj (fields : List (String × Json))

/-- Skip JSON whitespace. -/
def skipWs : List Char → List Char
  | c :: t =>
      if c = ' ' ∨ c = '\t' ∨ c = '\n' ∨ c = '\r' then skipWs t else c :: t
  | [] => []

/-- Decimal digits off the front. -/
def takeDigits : List Char → List Char × List Char
  | c :: t =>
      if c.isDigit then
        let (ds, r) := takeDigits t
        (c :: ds, r)
      else ([], c :: t)
  | [] => ([], [])

/-- The natural number a digit string denotes. -/
def digitsToNat (ds : List Char) : Nat :=
  ds.foldl (fun n c => n * 10 + (c.toNat - 48)) 0

/-- Parse the integer part of a JSON number (no leading zeros). -/
def parseIntPart (cs : List Char) : Option (Nat × List Char) :=
  match cs with
  | '0' :: t =>
      match t with
      | c :: _ => if c.isDigit then none else some (0, t)
      | [] => some (0, [])
  | c :: _ =>
      if c.isDigit then
        let (ds, r) := takeDigits cs
        some (digitsToNat ds, r)
      else none
  | [] => none

/-- Parse the optional fraction part; yields (numerator, denominator). -/
def parseFracPart (cs : List Char) : Option (Rat × List Char) :=
  match cs with
  | '.' :: t =>
      let (ds, r) := takeDigits t
      if ds.isEmpty then none
      else some ((digitsToNat ds : Rat) / ((10 : Rat) ^ ds.length), r)
  | _ => some (0, cs)

/-- Parse the optional exponent part; yields the scale factor. -/
def parseExpPart (cs : List Char) : Option (Rat × List Char) :=
  match cs with
  | c :: t =>
      if c = 'e' ∨ c = 'E' then
        let (neg, t') :=
          match t with
          | '-' :: u => (true, u)
          | '+' :: u => (false, u)
          | u => (false, u)
        let (ds, r) := takeDigits t'
        if ds.isEmpty then none
        else
          let p : Rat := (10 : Rat) ^ digitsToNat ds
          some (if neg then 1 / p else p, r)
      else some (1, cs)
  | [] => some (1, [])

/-- Parse a JSON number. -/
def parseNumber (cs : List Char) : Option (Rat × List Char) :=
  let (neg, cs₁) :=
    match cs with
    | '-' :: t => (true, t)
    | t => (false, t)
  match parseIntPart cs₁ with
  | none => none
  | some (i, cs₂) =>
    match parseFracPart cs₂ with
    | none => none
    | some (f, cs₃) =>
      match parseExpPart cs₃ with
      | none => none
      | some (scale, cs₄) =>
          let m : Rat := ((i : Rat) + f) * scale
          some (if neg then -m else m, cs₄)

/-- One hex digit value. -/
def hexVal (c : Char) : Option Nat :=
  if '0' ≤ c ∧ c ≤ '9' then some (c.toNat - 48)
  else if 'a' ≤ c ∧ c ≤ 'f' then some (c.toNat - 87)
  else if 'A' ≤ c ∧ c ≤ 'F' then some (c.toNat - 55)
  else none

/-- Parse the body of a JSON string after the opening quote, handling the
standard escapes (`\u` is decoded as a single code point; surrogate-pair
recombination is not modelled and is not exercised by any input here). -/
def parseStrBody : List Char → Option (List Char × List Char)
  | [] => none
  | '\"' :: t => some ([], t)
  | '\\' :: e :: t =>
      match e with
      | '\"' => (parseStrBody t).map fun (s, r) => ('\"' :: s, r)
      | '\\' => (parseStrBody t).map fun (s, r) => ('\\' :: s, r)
      | '/' => (parseStrBody t).map fun (s, r) => ('/' :: s, r)
      | 'b' => (parseStrBody t).map fun (s, r) => ('\x08' :: s, r)
      | 'f' => (parseStrBody t).map fun (s, r) => ('\x0c' :: s, r)
      | 'n' => (parseStrBody t).map fun (s, r) => ('\n' :: s, r)
      | 'r' => (parseStrBody t).map fun (s, r) => ('\r' :: s, r)
      | 't' => (parseStrBody t).map fun (s, r) => ('\t' :: s, r)
      | 'u' =>
          match t with
          | h1 :: h2 :: h3 :: h4 :: t' =>
              match hexVal h1, hexVal h2, hexVal h3, hexVal h4 with
              | some a, some b, some c, some d =>
                  (parseStrBody t').map fun (s, r) =>
                    (Char.ofNat (a * 4096 + b * 256 + c * 16 + d) :: s, r)
              | _, _, _, _ => none
          | _ => none
      | _ => none
  | c :: t =>
      if c.toNat < 32 then none
      else (parseStrBody t).map fun (s, r) => (c :: s, r)

/-- Replace an existing key or append (`JSON.parse` keeps the last value of
a duplicated key, at the key's first position). -/
def objUpsert (fs : List (String × Json)) (k : String) (v : Json) :
    List (String × Json) :=
  if fs.any (fun p => p.1 == k) then
    fs.map fun p => if p.1 == k then (k, v) else p
  else fs ++ [(k, v)]

mutual

/-- Parse one JSON value (fuel-indexed; fuel exceeding the input length
makes the `none`-by-fuel case unreachable). -/
def parseVal : Nat → List Char → Option (Json × List Char)
  | 0, _ => none
  | fuel + 1, cs =>
      match skipWs cs with
      | '\x7b' :: t =>
          match skipWs t with
          | '\x7d' :: r => some (.obj [], r)
          | t' => parseMembers fuel t' []
      | '[' :: t =>
          match skipWs t with
          | ']' :: r => some (.arr [], r)
          | t' => parseItems fuel t' []
      | '\"' :: t =>
          (parseStrBody t).map fun (s, r) => (.str (String.mk s), r)
      | 't' :: 'r' :: 'u' :: 'e' :: t => some (.bool true, t)
      | 'f' :: 'a' :: 'l' :: 's' :: 'e' :: t => some (.bool false, t)
      | 'n' :: 'u' :: 'l' :: 'l' :: t => some (.null, t)
      | cs' => (parseNumber cs').map fun (q, r) => (.num q, r)

/-- Parse the members of a JSON object after its opening brace. -/
def parseMembers (fuel : Nat) (cs : List Char)
    (acc : List (String × Json)) : Option (Json × List Char) :=
  match fuel with
  | 0 => none
  | fuel + 1 =>
    match skipWs cs with
    | '\"' :: t =>
        match parseStrBody t with
        | none => none
        | some (k, r) =>
            match skipWs r with
            | ':' :: r' =>
                match parseVal fuel r' with
                | none => none
                | some (v, r'') =>
                    let acc' := objUpsert acc (String.mk k) v
                    match skipWs r'' with
                    | ',' :: r₃ => parseMembers fuel r₃ acc'
                    | '\x7d' :: r₃ => some (.obj acc', r₃)
                    | _ => none
            | _ => none
    | _ => none

/-- Parse the items of a JSON array after its opening bracket. -/
def parseItems (fuel : Nat) (cs : List Char) (acc : List Json) :
    Option (Json × List Char) :=
  match fuel with
  | 0 => none
  | fuel + 1 =>
    match parseVal fuel cs with
    | none => none
    | some (v, r) =>
        let acc' := acc ++ [v]
        match skipWs r with
        | ',' :: r' => parseItems fuel r' acc'
        | ']' :: r' => some (.arr acc', r')
        | _ => none

end

/-- `JSON.parse`: one value, then only trailing whitespace. -/
def parseJson (s : String) : Option Json :=
  match parseVal (s.length + 1) s.data with
  | some (v, rest) => if skipWs rest = [] then some v else none
  | none => none

/-! ## JavaScript value semantics used by the handler -/

/-- Numeric equality of rationals, by components — exact, since `Rat` is
kept in lowest terms. -/
def ratEqB (a b : Rat) : Bool :=
  a.num == b.num && a.den == b.den

/-- Truthiness of a JavaScript value (`undefined` is `none`).  A rational
in lowest terms is zero exactly when its numerator is. -/
def jsTruthy : Option Json → Bool
  | none => false
  | some .null => false
  | some (.bool b) => b
  | some (.num q) => !(q.num == 0)
  | some (.str s) => decide (s ≠ "")
  | some (.arr _) => true
  | some (.obj _) => true

/-- `a || b`: the left operand if truthy, else the right. -/
def jsOr (a b : Option Json) : Option Json :=
  if jsTruthy a then a else b

/-- `a ?? b`: the left operand unless it is nullish. -/
def jsNullish (a b : Option Json) : Option Json :=
  match a with
  | none => b
  | some .null => b
  | some v => some v

/-- `a ?? b` when the left operand is a definite value. -/
def jsNullishJ (a b : Json) : Json :=
  match a with
  | .null => b
  | v => v

/-- Optional-chained property access `v?.k`: a lookup on objects,
`undefined` on everything else (including `undefined` and `null`). -/
def jGet (v : Option Json) (k : String) : Option Json :=
  match v with
  | some (.obj fs) => (fs.find? fun p => p.1 == k).map (·.2)
  | _ => none

/-- Strict equality `v === lit` against a number literal. -/
def jsEqNum (v : Json) (n : Rat) : Bool :=
  match v with
  | .num q => ratEqB q n
  | _ => false

/-- Strict equality `v === lit` against a string literal (on an optionally
present value). -/
def jsEqStr (v : Option Json) (s : String) : Bool :=
  match v with
  | some (.str t) => t == s
  | _ => false

/-- Decimal digits of a fraction `num / den`, stopping when exact (every
value reachable here is a terminating decimal; the fuel bound is never hit
on them). -/
def fracDigits : Nat → Nat → Nat → List Char
  | 0, _, _ => []
  | _, 0, _ => []
  | fuel + 1, num, den =>
      Char.ofNat (48 + num * 10 / den % 10) :: fracDigits fuel (num * 10 % den) den

/-- `String(x)` for a non-negative number. -/
def ratToJsStringNonneg (q : Rat) : String :=
  let n := q.num.toNat
  let i := n / q.den
  let rem := n % q.den
  if rem = 0 then toString i
  else toString i ++ "." ++ String.mk (fracDigits 100 rem q.den)

/-- `String(x)` for a number: the shortest decimal form, which for the
terminating decimals arising here coincides with JavaScript's float
printing.  (A rational is negative exactly when its numerator is.) -/
def ratToJsString (q : Rat) : String :=
  if q.num < 0 then "-" ++ ratToJsStringNonneg (-q) else ratToJsStringNonneg q

mutual

/-- `String(v)` on a (possibly nested) array: elements joined by commas,
`null` elements empty, other elements rendered recursively. -/
def jsArrToString : List Json → String
  | [] => ""
  | [x] => jsItemToString x
  | x :: xs => jsItemToString x ++ "," ++ jsArrToString xs

/-- One array element under `join`. -/
def jsItemToString : Json → String
  | .null => ""
  | .bool b => if b then "true" else "false"
  | .num q => ratToJsString q
  | .str s => s
  | .arr xs => jsArrToString xs
  | .obj _ => "[object Object]"

end

/-- `String(v)` / template-literal interpolation of a JavaScript value. -/
def jsToString : Json → String
  | .null => "null"
  | .bool b => if b then "true" else "false"
  | .num q => ratToJsString q
  | .str s => s
  | .arr xs => jsArrToString xs
  | .obj _ => "[object Object]"

/-- `Array.prototype.toString`: elements joined by commas. -/
def jsToStringItems (xs : List Json) : String :=
  jsArrToString xs

/-- Whitespace trimmed by `ToNumber` on strings. -/
def jsWsChar (c : Char) : Bool :=
  c = ' ' ∨ c = '\t' ∨ c = '\n' ∨ c = '\r' ∨ c = '\x0b' ∨ c = '\x0c'

/-- `ToNumber` applied to a string: empty (after trimming) is `0`, a
decimal literal is its value, anything else is NaN (`none`).  Hexadecimal
and `Infinity` forms are not modelled; nothing here produces them. -/
def strToNumberJs (s : String) : Option Rat :=
  let cs := (s.data.dropWhile jsWsChar).reverse.dropWhile jsWsChar |>.reverse
  match cs with
  | [] => some 0
  | _ =>
    let (neg, cs₁) :=
      match cs with
      | '-' :: t => (true, t)
      | '+' :: t => (false, t)
      | t => (false, t)
    let (ds, cs₂) := takeDigits cs₁
    match parseFracPart cs₂ with
    | none => none
    | some (f, cs₃) =>
        if ds.isEmpty ∧ f = 0 ∧ cs₂ = cs₃ then none
        else
          match parseExpPart cs₃ with
          | none => none
          | some (scale, cs₄) =>
              if cs₄ = [] then
                let m : Rat := ((digitsToNat ds : Rat) + f) * scale
                some (if neg then -m else m)
              else none

/-- `ToNumber` of a JavaScript value (`none` is NaN).  Arrays coerce via
their string form; plain objects always give NaN. -/
def jsToNumber : Json → Option Rat
  | .null => some 0
  | .bool b => some (if b then 1 else 0)
  | .num q => some q
  | .str s => strToNumberJs s
  | .arr xs => strToNumberJs (jsToStringItems xs)
  | .obj _ => none

/-- Interpolation of a number that may be NaN. -/
def numDisplay (o : Option Rat) : String :=
  match o with
  | none => "NaN"
  | some q => ratToJsString q

/-! ## Product links, price points and email content (source lines 10–18
and 75–152) -/

/-- The Blueprint product folder link. -/
def BLUEPRINT_LINK : String :=
  "https://drive.google.com/drive/folders/1S8n0feXCtWhDDufW-toGcgO3n-2LDvGm"

/-- The Complete-Kit product folder link. -/
def COMPLETE_KIT_LINK : String :=
  "https://drive.google.com/drive/folders/1ktVOK--idZkGvE8ko20uRbgD_Xj7-Zqq"

/-- The Blueprint price point in paise. -/
def PRICE_BLUEPRINT_PAISE : Rat := 14900

/-- The Complete-Package price point in paise. -/
def PRICE_COMPLETE_PAISE : Rat := 24900

/-- The generic fallback paragraph used for unmapped amounts. -/
def fallbackLinksHtml : String :=
  "\n      <p style=\"margin:10px 0 0\">\n        Thanks for your purchase. Your payment was received, but this amount doesn’t match ₹149 or ₹249.\n        Reply to this email with your Payment ID and we’ll help you immediately.\n      </p>\n    "

/-- The `kitTitle` / `linksHtml` selection of `buildEmailContent` (the
`if isBlueprint / else if isComplete / else` chain, source lines 84–123):
an exact strict-equality match on the amount in paise. -/
def buildLinksHtml (amountPaise : Json) : String × String :=
  if jsEqNum amountPaise PRICE_BLUEPRINT_PAISE then
    ("Tactical BA Blueprint",
     "\n      <ul style=\"margin:10px 0 0; padding-left:18px\">\n        <li>\n          <b>Tactical BA Blueprint</b>:\n          <a href=\"" ++
     BLUEPRINT_LINK ++
     "\" target=\"_blank\" rel=\"noopener noreferrer\">Open folder</a>\n        </li>\n      </ul>\n    ")
  else if jsEqNum amountPaise PRICE_COMPLETE_PAISE then
    ("Tactical BA Complete Package",
     "\n      <ul style=\"margin:10px 0 0; padding-left:18px\">\n        <li>\n          <b>Tactical BA Blueprint</b>:\n          <a href=\"" ++
     BLUEPRINT_LINK ++
     "\" target=\"_blank\" rel=\"noopener noreferrer\">Open folder</a>\n        </li>\n        <li style=\"margin-top:6px\">\n          <b>Tactical BA Complete Kit</b>:\n          <a href=\"" ++
     COMPLETE_KIT_LINK ++
     "\" target=\"_blank\" rel=\"noopener noreferrer\">Open folder</a>\n        </li>\n      </ul>\n    ")
  else
    ("Tactical BA Purchase", fallbackLinksHtml)

/-- An email subject and HTML body. -/
structure EmailContent where
  subject : String
  html : String

/-- The `${currency} ${amountRupees}` fragment of the body, with
`amountRupees = (amountPaise ?? 0) / 100`. -/
def amountLine (amountPaise currency : Json) : String :=
  jsToString currency ++ " " ++
    numDisplay ((jsToNumber (jsNullishJ amountPaise (.num 0))).map (· / 100))

/-- `buildEmailContent` (source lines 75–152).  The handler's TypeScript
annotations promise a number and strings, but at runtime whatever the
payload held flows in, so the parameters are JavaScript values and the
template interpolations coerce them. -/
def buildEmailContent (amountPaise currency paymentId reference : Json) :
    EmailContent :=
  let titleLinks := buildLinksHtml amountPaise
  let subject := "Your " ++ titleLinks.1 ++ " access links ✅"
  let html :=
    "\n    <div style=\"font-family:system-ui,-apple-system,Segoe UI,Roboto,Arial,sans-serif;line-height:1.5\">\n      <h2 style=\"margin:0 0 10px\">Payment confirmed ✅</h2>\n\n      <p style=\"margin:0 0 10px\">\n        Thanks for your purchase! Your payment of <b>" ++
    amountLine amountPaise currency ++
    "</b> was successful.\n      </p>\n\n      <div style=\"border:1px solid #eee; border-radius:10px; padding:12px; margin:12px 0\">\n        <div style=\"font-weight:600; margin-bottom:6px\">Your access links</div>\n        " ++
    titleLinks.2 ++
    "\n      </div>\n\n      <p style=\"margin:10px 0 0; color:#444\">\n        <b>Reference:</b> " ++
    jsToString reference ++
    "<br/>\n        <b>Payment ID:</b> " ++
    jsToString paymentId ++
    "\n      </p>\n\n      <p style=\"margin:14px 0 0; color:#666; font-size:12px\">\n        If you face any access issues, reply to this email with your Payment ID.\n      </p>\n    </div>\n  "
  ⟨subject, html⟩

/-! ## The request handler (source lines 154–252) -/

/-- The environment-sourced configuration. -/
structure Env where
  webhookSecret : Option String
  resendApiKey : Option String
  fromEmail : Option String
  fallbackTo : Option String

/-- The outbound request `sendEmailViaResend` makes (its `fetch` body and
bearer token). -/
structure EmailReq where
  resendApiKey : String
  fromEmail : String
  toEmail : Json
  subject : String
  html : String

/-- The provider's answer to a send: success flag, HTTP status, raw text. -/
structure EmailResp where
  ok : Bool
  status : Nat
  text : String

/-- A response body: `res.send(text)` or `res.json(value)`. -/
inductive RBody where
  | text (s : String)
  | json (j : Json)

/-- An HTTP response: status code and body. -/
structure Response where
  status : Nat
  body : RBody

/-- The observable steps of one invocation, in execution order. -/
inductive Action where
  | sigVerify (ok : Bool)
  | jsonParse (ok : Bool)
  | emailSend
deriving DecidableEq

/-- Everything one invocation produces: the HTTP response, the outbound
email calls, and the ordered step trace. -/
structure HResult where
  resp : Response
  emails : List EmailReq
  trace : List Action

/-- Key lookup in an object response body. -/
def jLookup (j : Json) (k : String) : Option Json :=
  match j with
  | .obj fs => (fs.find? fun p => p.1 == k).map (·.2)
  | _ => none

/-- The recipient lookup chain (source lines 196–200):
`payment?.email || payment?.notes?.email || paymentLink?.customer?.email
|| fallbackTo`. -/
def resolveToEmail (payment paymentLink : Option Json)
    (fallbackTo : Option String) : Option Json :=
  jsOr (jsOr (jsOr (jGet payment "email") (jGet (jGet payment "notes") "email"))
             (jGet (jGet paymentLink "customer") "email"))
       (fallbackTo.map Json.str)

/-- `payment?.amount ?? paymentLink?.amount ?? 0` (source lines 202–203). -/
def resolveAmount (payment paymentLink : Option Json) : Json :=
  (jsNullish (jGet payment "amount")
    (jsNullish (jGet paymentLink "amount") (some (.num 0)))).getD (.num 0)

/-- `payment?.currency ?? paymentLink?.currency ?? "INR"` (source lines
205–206). -/
def resolveCurrency (payment paymentLink : Option Json) : Json :=
  (jsNullish (jGet payment "currency")
    (jsNullish (jGet paymentLink "currency") (some (.str "INR")))).getD (.str "INR")

/-- `payment?.id ?? "NA"` (source line 208). -/
def resolvePaymentId (payment : Option Json) : Json :=
  (jsNullish (jGet payment "id") (some (.str "NA"))).getD (.str "NA")

/-- `paymentLink?.reference_id ?? paymentLink?.id ?? payment?.order_id ??
"NA"` (source lines 210–214). -/
def resolveReference (payment paymentLink : Option Json) : Json :=
  (jsNullish (jGet paymentLink "reference_id")
    (jsNullish (jGet paymentLink "id")
      (jsNullish (jGet payment "order_id") (some (.str "NA"))))).getD (.str "NA")

/-- The configuration guard (source line 162):
`!webhookSecret || !resendApiKey || !fromEmail`. -/
def cfgMissing (env : Env) : Bool :=
  jsFalsyStr env.webhookSecret || jsFalsyStr env.resendApiKey ||
    jsFalsyStr env.fromEmail

/-- The webhook handler (source lines 154–252).  `resend` stands for the
email provider's behaviour on the one outbound `fetch`.  `res.json`
serialization drops `undefined`-valued properties, hence the conditional
`ignored` key. -/
def handler (env : Env) (method : String) (rawBody : String)
    (signature : Option String) (resend : EmailReq → EmailResp) : HResult :=
  if method ≠ "POST" then
    ⟨⟨405, .text "Method Not Allowed"⟩, [], []⟩
  else if cfgMissing env then
    ⟨⟨500, .text "Missing env vars"⟩, [], []⟩
  else if ¬ getOk (verifyRazorpaySignature rawBody signature
                    (env.webhookSecret.getD "")) then
    ⟨⟨401, .text "Invalid signature"⟩, [], [.sigVerify false]⟩
  else
    match parseJson rawBody with
    | none =>
        ⟨⟨400, .text "Invalid JSON"⟩, [], [.sigVerify true, .jsonParse false]⟩
    | some event =>
      let ev := jGet (some event) "event"
      if jsEqStr ev "payment.captured" ∨ jsEqStr ev "payment_link.paid" then
        let payment := jGet (jGet (jGet (some event) "payload") "payment") "entity"
        let paymentLink :=
          jGet (jGet (jGet (some event) "payload") "payment_link") "entity"
        let toEmail := resolveToEmail payment paymentLink env.fallbackTo
        if ¬ jsTruthy toEmail then
          ⟨⟨200, .json (.obj [("ok", .bool true),
                              ("note", .str "No email found in payload")])⟩,
           [], [.sigVerify true, .jsonParse true]⟩
        else
          let content := buildEmailContent (resolveAmount payment paymentLink)
            (resolveCurrency payment paymentLink) (resolvePaymentId payment)
            (resolveReference payment paymentLink)
          let req : EmailReq := ⟨env.resendApiKey.getD "", env.fromEmail.getD "",
            toEmail.getD .null, content.subject, content.html⟩
          let emailResp := resend req
          if ¬ emailResp.ok then
            ⟨⟨200, .json (.obj [("ok", .bool false),
                                ("resend_error", .str emailResp.text)])⟩,
             [req], [.sigVerify true, .jsonParse true, .emailSend]⟩
          else
            ⟨⟨200, .json (.obj [("ok", .bool true)])⟩,
             [req], [.sigVerify true, .jsonParse true, .emailSend]⟩
      else
        ⟨⟨200, .json (.obj ([("ok", .bool true)] ++
            (match ev with
             | some v => [("ignored", v)]
             | none => [])))⟩,
         [], [.sigVerify true, .jsonParse true]⟩

/-! ## Substring occurrence -/

/-- Does `needle` occur contiguously in `hay`? -/
def infixCheck (needle : List Char) : List Char → Bool
  | [] => needle.isEmpty
  | c :: t => needle.isPrefixOf (c :: t) || infixCheck needle t

/-- Substring occurrence on strings. -/
def strContains (hay needle : String) : Bool :=
  infixCheck needle.data hay.data

theorem infixCheck_iff (needle hay : List Char) :
    infixCheck needle hay = true ↔ needle <:+: hay := by
  induction hay with
  | nil => simp [infixCheck, List.isEmpty_iff]
  | cons c t ih =>
      simp [infixCheck, List.isPrefixOf_iff_prefix, ih, List.infix_cons_iff]

theorem strContains_iff (hay needle : String) :
    strContains hay needle = true ↔ needle.data <:+: hay.data :=
  infixCheck_iff _ _

theorem strContains_append_right (a b needle : String)
    (h : strContains b needle = true) :
    strContains (a ++ b) needle = true := by
  rw [strContains_iff] at h ⊢
  show needle.data <:+: a.data ++ b.data
  obtain ⟨s, t, hst⟩ := h
  exact ⟨a.data ++ s, t, by simp [← hst]⟩

theorem strContains_append_left (a b needle : String)
    (h : strContains a needle = true) :
    strContains (a ++ b) needle = true := by
  rw [strContains_iff] at h ⊢
  show needle.data <:+: a.data ++ b.data
  obtain ⟨s, t, hst⟩ := h
  exact ⟨s, t ++ b.data, by simp [← hst]⟩

/-! ## Basic facts about the digest and the verifier -/

theorem wordBytes_length (w : Nat) : (wordBytes w).length = 4 := rfl

theorem sha256_length (msg : List Nat) : (sha256 msg).length = 32 := by
  simp [sha256, wordBytes]

theorem hexOfBytes_length (bs : List Nat) :
    (hexOfBytes bs).length = 2 * bs.length := by
  show (String.mk _).length = _
  rw [String.length_mk]
  induction bs with
  | nil => rfl
  | cons b t ih => simp [List.flatMap_cons, ih]; ring

/-- The hex HMAC digest always has 64 characters. -/
theorem hmacHex_length (secret body : String) :
    (hmacHex secret body).length = 64 := by
  unfold hmacHex hmacSha256
  rw [hexOfBytes_length, sha256_length]

theorem hmacHex_ne_empty (secret body : String) : hmacHex secret body ≠ "" := by
  intro h
  have := hmacHex_length secret body
  rw [h] at this
  exact absurd this (by decide)

theorem strToBytes_length (s : String) : (strToBytes s).length = s.length := by
  show (s.data.map Char.toNat).length = s.length
  rw [List.length_map]
  rfl

theorem strToBytes_injective : Function.Injective strToBytes := by
  intro a b h
  apply String.ext
  exact List.map_injective_iff.mpr
    (fun x y hxy => Char.ext (UInt32.ext hxy)) h

/-- The verifier accepts the genuine digest. -/
theorem verify_accept (body secret : String) :
    verifyRazorpaySignature body (some (hmacHex secret body)) secret =
      .ok true := by
  unfold verifyRazorpaySignature
  rw [if_neg, if_neg]
  · simp [timingSafeEqual]
  · simp
  · simp [jsFalsyStr, hmacHex_ne_empty]

/-- The verifier rejects any supplied signature other than the genuine
digest — in particular any single-character or single-bit corruption of
it. -/
theorem verify_reject_ne (body secret sig : String)
    (h : sig ≠ hmacHex secret body) :
    verifyRazorpaySignature body (some sig) secret = .ok false := by
  unfold verifyRazorpaySignature
  by_cases hs : jsFalsyStr (some sig) = true
  · rw [if_pos hs]
  · rw [if_neg hs]
    simp only [Option.getD_some]
    by_cases hl : (strToBytes (hmacHex secret body)).length ≠ (strToBytes sig).length
    · rw [if_pos hl]
    · rw [if_neg hl, timingSafeEqual, if_pos (by omega)]
      have : strToBytes (hmacHex secret body) ≠ strToBytes sig := by
        intro he
        exact h (strToBytes_injective he).symm
      simp [this]

/-- The verifier never reaches the throwing branch of the comparison. -/
theorem verify_never_error (body secret : String) (sig : Option String) :
    ∃ b, verifyRazorpaySignature body sig secret = .ok b := by
  unfold verifyRazorpaySignature
  by_cases hs : jsFalsyStr sig = true
  · exact ⟨false, by rw [if_pos hs]⟩
  · rw [if_neg hs]
    by_cases hl : (strToBytes (hmacHex secret body)).length ≠
        (strToBytes (sig.getD "")).length
    · exact ⟨false, by rw [if_pos hl]⟩
    · rw [if_neg hl, timingSafeEqual, if_pos (by omega)]
      exact ⟨_, rfl⟩

/-! ## Claim theorems -/

/-- C3: `verifyRazorpaySignature` is total and never throws: every call
returns a definite boolean (never the `Except.error` of the unequal-length
comparison branch), an absent signature yields `false`, and a digest/
signature byte-length mismatch yields `false` before the constant-time
comparison is reached. -/
theorem c3_verify_total_never_throws (body secret : String) :
    (∀ sig, ∃ b, verifyRazorpaySignature body sig secret = Except.ok b) ∧
    verifyRazorpaySignature body none secret = Except.ok false ∧
    (∀ s, (strToBytes (hmacHex secret body)).length ≠ (strToBytes s).length →
      verifyRazorpaySignature body (some s) secret = Except.ok false) := by
  refine ⟨fun sig => verify_never_error body secret sig, rfl, fun s hlen => ?_⟩
  unfold verifyRazorpaySignature
  by_cases hs : jsFalsyStr (some s) = true
  · rw [if_pos hs]
  · rw [if_neg hs]
    simp only [Option.getD_some]
    rw [if_pos hlen]

/-- C3 witness: evaluated at body `"abc"`, secret `"k"`, and the two-byte
signature `"xy"`. -/
theorem c3_witness :
    (∃ b, verifyRazorpaySignature "abc" (some "xy") "k" = Except.ok b) ∧
    verifyRazorpaySignature "abc" none "k" = Except.ok false ∧
    verifyRazorpaySignature "abc" (some "xy") "k" = Except.ok false := by
  have h := c3_verify_total_never_throws "abc" "k"
  refine ⟨h.1 (some "xy"), h.2.1, h.2.2 "xy" ?_⟩
  rw [strToBytes_length, strToBytes_length, hmacHex_length]
  decide

/-- Any request that passes the method, configuration, signature and parse
gates is answered 200 with a JSON object carrying a boolean `ok`. -/
theorem handler_200_shape (env : Env) (method rawBody : String)
    (signature : Option String) (resend : EmailReq → EmailResp) (event : Json)
    (h1 : ¬ method ≠ "POST") (h2 : ¬ cfgMissing env = true)
    (h3 : getOk (verifyRazorpaySignature rawBody signature
            (env.webhookSecret.getD "")) = true)
    (hp : parseJson rawBody = some event) :
    (handler env method rawBody signature resend).resp.status = 200 ∧
    ∃ fields b,
      (handler env method rawBody signature resend).resp.body =
        RBody.json (Json.obj fields) ∧
      jLookup (Json.obj fields) "ok" = some (Json.bool b) := by
  unfold handler
  rw [if_neg h1, if_neg h2, if_neg (by simp [h3]), hp]
  dsimp only
  split
  · split
    · exact ⟨rfl, _, true, rfl, rfl⟩
    · split
      · exact ⟨rfl, _, false, rfl, rfl⟩
      · exact ⟨rfl, _, true, rfl, rfl⟩
  · exact ⟨rfl, _, true, rfl, rfl⟩

/-- C2: the response status is exactly the documented cascade —
405 for a non-POST method, else 500 on missing configuration, else 401 on
an invalid signature, else 400 on an unparsable body, else 200 — and every
200 response body is a JSON object carrying a boolean `ok`. -/
theorem c2_response_contract (env : Env) (method rawBody : String)
    (signature : Option String) (resend : EmailReq → EmailResp) :
    (handler env method rawBody signature resend).resp.status =
      (if method ≠ "POST" then 405
       else if cfgMissing env then 500
       else if ¬ getOk (verifyRazorpaySignature rawBody signature
                          (env.webhookSecret.getD "")) then 401
       else if (parseJson rawBody).isNone then 400
       else 200) ∧
    ((handler env method rawBody signature resend).resp.status = 200 →
      ∃ fields b,
        (handler env method rawBody signature resend).resp.body =
          RBody.json (Json.obj fields) ∧
        jLookup (Json.obj fields) "ok" = some (Json.bool b)) := by
  by_cases h1 : method ≠ "POST"
  · unfold handler
    simp [h1]
  · by_cases h2 : cfgMissing env = true
    · unfold handler
      simp [h1, h2]
    · by_cases h3 : getOk (verifyRazorpaySignature rawBody signature
          (env.webhookSecret.getD "")) = true
      · cases hp : parseJson rawBody with
        | none =>
            unfold handler
            rw [if_neg h1, if_neg h2, if_neg (by simp [h3]), hp]
            simp [not_ne_iff.mp h1, h2, h3]
        | some event =>
            obtain ⟨hst, hb⟩ :=
              handler_200_shape env method rawBody signature resend event h1
                h2 h3 hp
            refine ⟨?_, fun _ => hb⟩
            rw [hst, if_neg h1, if_neg h2, if_neg (by simp [h3])]
            rfl
      · unfold handler
        rw [if_neg h1, if_neg h2, if_pos (by simp [h3])]
        simp [h1, h2, h3]

/-- C2 witness: a POST with full configuration, the genuine signature and
the body `\x7b\x7d` reaches the 200 arm with a boolean `ok` in the JSON
response. -/
theorem c2_witness :
    (handler ⟨some "sec", some "key", some "me@x.com", none⟩ "POST" "\x7b\x7d"
        (some (hmacHex "sec" "\x7b\x7d")) (fun _ => ⟨true, 200, "id"⟩)).resp.status
      = 200 ∧
    ∃ fields b,
      (handler ⟨some "sec", some "key", some "me@x.com", none⟩ "POST" "\x7b\x7d"
          (some (hmacHex "sec" "\x7b\x7d")) (fun _ => ⟨true, 200, "id"⟩)).resp.body =
        RBody.json (Json.obj fields) ∧
      jLookup (Json.obj fields) "ok" = some (Json.bool b) := by
  have h := c2_response_contract ⟨some "sec", some "key", some "me@x.com", none⟩
    "POST" "\x7b\x7d" (some (hmacHex "sec" "\x7b\x7d")) (fun _ => ⟨true, 200, "id"⟩)
  have hst : (handler ⟨some "sec", some "key", some "me@x.com", none⟩ "POST"
      "\x7b\x7d" (some (hmacHex "sec" "\x7b\x7d"))
      (fun _ => ⟨true, 200, "id"⟩)).resp.status = 200 := by
    rw [h.1, if_neg (by simp), if_neg (by decide),
        if_neg (by simp [verify_accept, getOk]), if_neg (by decide)]
  exact ⟨hst, h.2 hst⟩

/-- C4: JSON parsing happens only downstream of a successful signature
check over the raw body: a failed check produces no email and no parse
step, any parse step in the trace sits after a successful verification
step, and any email-send step sits after both. -/
theorem c4_verify_before_parse (env : Env) (method rawBody : String)
    (signature : Option String) (resend : EmailReq → EmailResp) :
    (getOk (verifyRazorpaySignature rawBody signature
        (env.webhookSecret.getD "")) = false →
      (handler env method rawBody signature resend).emails = [] ∧
      ∀ b, Action.jsonParse b ∉
        (handler env method rawBody signature resend).trace) ∧
    (∀ b, Action.jsonParse b ∈
        (handler env method rawBody signature resend).trace →
      ∃ rest, (handler env method rawBody signature resend).trace =
        Action.sigVerify true :: rest) ∧
    (Action.emailSend ∈ (handler env method rawBody signature resend).trace →
      ∃ rest, (handler env method rawBody signature resend).trace =
        Action.sigVerify true :: Action.jsonParse true :: rest) := by
  unfold handler
  by_cases h1 : method ≠ "POST"
  · simp [h1]
  · rw [if_neg h1]
    by_cases h2 : cfgMissing env = true
    · simp [h2]
    · rw [if_neg h2]
      by_cases h3 : getOk (verifyRazorpaySignature rawBody signature
          (env.webhookSecret.getD "")) = true
      · rw [if_neg (by simp [h3])]
        cases hp : parseJson rawBody with
        | none => simp [h3]
        | some event =>
            dsimp only
            split
            · split
              · simp [h3]
              · split <;> simp [h3]
            · simp [h3]
      · rw [if_pos (by simp [h3])]
        simp [h3]

/-- `a || b` falls through when `a` is falsy. -/
theorem jsOr_of_falsy {a : Option Json} (h : jsTruthy a = false)
    (b : Option Json) : jsOr a b = b := by
  rw [jsOr, if_neg (by simp [h])]

/-- `a || b` short-circuits when `a` is truthy. -/
theorem jsOr_of_truthy {a : Option Json} (h : jsTruthy a = true)
    (b : Option Json) : jsOr a b = a := by
  rw [jsOr, if_pos h]

/-- C5: on a recognized event with a resolvable recipient, a failing
provider send still yields a 200 response whose JSON body is
`ok: false` with the provider's raw text under `resend_error`. -/
theorem c5_resend_failure_still_200 (env : Env) (rawBody : String)
    (signature : Option String) (er : EmailResp) (event : Json)
    (h2 : ¬ cfgMissing env = true)
    (h3 : getOk (verifyRazorpaySignature rawBody signature
            (env.webhookSecret.getD "")) = true)
    (hp : parseJson rawBody = some event)
    (hev : jsEqStr (jGet (some event) "event") "payment.captured" = true ∨
           jsEqStr (jGet (some event) "event") "payment_link.paid" = true)
    (hto : jsTruthy (resolveToEmail
        (jGet (jGet (jGet (some event) "payload") "payment") "entity")
        (jGet (jGet (jGet (some event) "payload") "payment_link") "entity")
        env.fallbackTo) = true)
    (hfail : er.ok = false) :
    (handler env "POST" rawBody signature (fun _ => er)).resp.status = 200 ∧
    (handler env "POST" rawBody signature (fun _ => er)).resp.body =
      RBody.json (Json.obj [("ok", Json.bool false),
                            ("resend_error", Json.str er.text)]) := by
  unfold handler
  rw [if_neg (by simp), if_neg h2, if_neg (by simp [h3]), hp]
  dsimp only
  rw [if_pos (by simpa using hev), if_neg (by simp [hto]),
      if_pos (by simp [hfail])]
  exact ⟨rfl, rfl⟩

/-- C6: on a recognized event where all three payload email locations are
empty and no fallback recipient is configured, the handler answers 200
with the no-email note and makes no outbound email call. -/
theorem c6_no_email_note (env : Env) (rawBody : String)
    (signature : Option String) (resend : EmailReq → EmailResp) (event : Json)
    (h2 : ¬ cfgMissing env = true)
    (h3 : getOk (verifyRazorpaySignature rawBody signature
            (env.webhookSecret.getD "")) = true)
    (hp : parseJson rawBody = some event)
    (hev : jsEqStr (jGet (some event) "event") "payment.captured" = true ∨
           jsEqStr (jGet (some event) "event") "payment_link.paid" = true)
    (he1 : jsTruthy (jGet
        (jGet (jGet (jGet (some event) "payload") "payment") "entity")
        "email") = false)
    (he2 : jsTruthy (jGet (jGet
        (jGet (jGet (jGet (some event) "payload") "payment") "entity")
        "notes") "email") = false)
    (he3 : jsTruthy (jGet (jGet
        (jGet (jGet (jGet (some event) "payload") "payment_link") "entity")
        "customer") "email") = false)
    (hfb : env.fallbackTo = none) :
    (handler env "POST" rawBody signature resend).resp =
      ⟨200, RBody.json (Json.obj [("ok", Json.bool true),
        ("note", Json.str "No email found in payload")])⟩ ∧
    (handler env "POST" rawBody signature resend).emails = [] := by
  have hto : jsTruthy (resolveToEmail
      (jGet (jGet (jGet (some event) "payload") "payment") "entity")
      (jGet (jGet (jGet (some event) "payload") "payment_link") "entity")
      env.fallbackTo) = false := by
    rw [resolveToEmail, jsOr_of_falsy he1, jsOr_of_falsy he2,
        jsOr_of_falsy he3, hfb]
    rfl
  unfold handler
  rw [if_neg (by simp), if_neg h2, if_neg (by simp [h3]), hp]
  dsimp only
  rw [if_pos (by simpa using hev), if_pos (by simp [hto])]
  exact ⟨rfl, rfl⟩

/-- C4 witness: with the signature header absent the handler sends no
email and never parses; with a genuine signature the trace opens with a
successful verification, and on an actionable event the email-send step
follows verification and parsing. -/
theorem c4_witness :
    ((handler ⟨some "sec", some "key", some "me@x.com", none⟩ "POST" "abc"
        none (fun _ => ⟨true, 200, "id"⟩)).emails = [] ∧
     ∀ b, Action.jsonParse b ∉
       (handler ⟨some "sec", some "key", some "me@x.com", none⟩ "POST" "abc"
         none (fun _ => ⟨true, 200, "id"⟩)).trace) ∧
    (∃ rest,
      (handler ⟨some "sec", some "key", some "me@x.com", none⟩ "POST" "\x7b\x7d"
        (some (hmacHex "sec" "\x7b\x7d")) (fun _ => ⟨true, 200, "id"⟩)).trace =
      Action.sigVerify true :: rest) ∧
    (∃ rest,
      (handler ⟨some "sec", some "key", some "me@x.com", none⟩ "POST"
        "\x7b\"event\":\"payment.captured\",\"payload\":\x7b\"payment\":\x7b\"entity\":\x7b\"amount\":14900,\"email\":\"b@y.com\"\x7d\x7d\x7d\x7d"
        (some (hmacHex "sec"
          "\x7b\"event\":\"payment.captured\",\"payload\":\x7b\"payment\":\x7b\"entity\":\x7b\"amount\":14900,\"email\":\"b@y.com\"\x7d\x7d\x7d\x7d"))
        (fun _ => ⟨true, 200, "id"⟩)).trace =
      Action.sigVerify true :: Action.jsonParse true :: rest) := by
  refine ⟨(c4_verify_before_parse _ "POST" "abc" none _).1 rfl, ?_, ?_⟩
  · have ht : (handler ⟨some "sec", some "key", some "me@x.com", none⟩ "POST"
        "\x7b\x7d" (some (hmacHex "sec" "\x7b\x7d"))
        (fun _ => ⟨true, 200, "id"⟩)).trace =
        [Action.sigVerify true, Action.jsonParse true] := by
      unfold handler
      rw [if_neg (by simp), if_neg (by decide),
          if_neg (by simp [verify_accept, getOk]),
          (show parseJson "\x7b\x7d" = some (Json.obj []) from rfl)]
      rfl
    exact (c4_verify_before_parse _ "POST" _ _ _).2.1 true (by rw [ht]; simp)
  · have ht : (handler ⟨some "sec", some "key", some "me@x.com", none⟩ "POST"
        "\x7b\"event\":\"payment.captured\",\"payload\":\x7b\"payment\":\x7b\"entity\":\x7b\"amount\":14900,\"email\":\"b@y.com\"\x7d\x7d\x7d\x7d"
        (some (hmacHex "sec"
          "\x7b\"event\":\"payment.captured\",\"payload\":\x7b\"payment\":\x7b\"entity\":\x7b\"amount\":14900,\"email\":\"b@y.com\"\x7d\x7d\x7d\x7d"))
        (fun _ => ⟨true, 200, "id"⟩)).trace =
        [Action.sigVerify true, Action.jsonParse true, Action.emailSend] := by
      unfold handler
      rw [if_neg (by simp), if_neg (by decide),
          if_neg (by simp [verify_accept, getOk])]
      rfl
    exact (c4_verify_before_parse _ "POST" _ _ _).2.2 (by rw [ht]; simp)

/-- C5 witness: a captured payment for a known buyer whose provider send
fails with status 422 and text `invalid from` is still acknowledged 200,
with the failure surfaced in the body. -/
theorem c5_witness :
    (handler ⟨some "sec", some "key", some "me@x.com", none⟩ "POST"
      "\x7b\"event\":\"payment.captured\",\"payload\":\x7b\"payment\":\x7b\"entity\":\x7b\"amount\":14900,\"email\":\"b@y.com\"\x7d\x7d\x7d\x7d"
      (some (hmacHex "sec"
        "\x7b\"event\":\"payment.captured\",\"payload\":\x7b\"payment\":\x7b\"entity\":\x7b\"amount\":14900,\"email\":\"b@y.com\"\x7d\x7d\x7d\x7d"))
      (fun _ => ⟨false, 422, "invalid from"⟩)).resp.status = 200 ∧
    (handler ⟨some "sec", some "key", some "me@x.com", none⟩ "POST"
      "\x7b\"event\":\"payment.captured\",\"payload\":\x7b\"payment\":\x7b\"entity\":\x7b\"amount\":14900,\"email\":\"b@y.com\"\x7d\x7d\x7d\x7d"
      (some (hmacHex "sec"
        "\x7b\"event\":\"payment.captured\",\"payload\":\x7b\"payment\":\x7b\"entity\":\x7b\"amount\":14900,\"email\":\"b@y.com\"\x7d\x7d\x7d\x7d"))
      (fun _ => ⟨false, 422, "invalid from"⟩)).resp.body =
      RBody.json (Json.obj [("ok", Json.bool false),
                            ("resend_error", Json.str "invalid from")]) := by
  exact c5_resend_failure_still_200 ⟨some "sec", some "key", some "me@x.com", none⟩
    _ _ ⟨false, 422, "invalid from"⟩ _ (by decide)
    (by simp [verify_accept, getOk]) rfl (Or.inl rfl) rfl rfl

/-- C6 witness: a captured payment of 14900 paise carrying no email
anywhere, with no fallback configured, gets the 200 no-email note and no
outbound call. -/
theorem c6_witness :
    (handler ⟨some "sec", some "key", some "me@x.com", none⟩ "POST"
      "\x7b\"event\":\"payment.captured\",\"payload\":\x7b\"payment\":\x7b\"entity\":\x7b\"amount\":14900\x7d\x7d\x7d\x7d"
      (some (hmacHex "sec"
        "\x7b\"event\":\"payment.captured\",\"payload\":\x7b\"payment\":\x7b\"entity\":\x7b\"amount\":14900\x7d\x7d\x7d\x7d"))
      (fun _ => ⟨true, 200, "id"⟩)).resp =
      ⟨200, RBody.json (Json.obj [("ok", Json.bool true),
        ("note", Json.str "No email found in payload")])⟩ ∧
    (handler ⟨some "sec", some "key", some "me@x.com", none⟩ "POST"
      "\x7b\"event\":\"payment.captured\",\"payload\":\x7b\"payment\":\x7b\"entity\":\x7b\"amount\":14900\x7d\x7d\x7d\x7d"
      (some (hmacHex "sec"
        "\x7b\"event\":\"payment.captured\",\"payload\":\x7b\"payment\":\x7b\"entity\":\x7b\"amount\":14900\x7d\x7d\x7d\x7d"))
      (fun _ => ⟨true, 200, "id"⟩)).emails = [] := by
  exact c6_no_email_note ⟨some "sec", some "key", some "me@x.com", none⟩
    _ _ _ _ (by decide) (by simp [verify_accept, getOk]) rfl (Or.inl rfl)
    rfl rfl rfl rfl

/-- C7 counterexample: the body `\x7b\x7d` is valid JSON whose event tag is
absent (hence unrecognized), yet the 200 response is exactly
`\x7b"ok": true\x7d` — it carries no `ignored` field at all, because
`res.json` serialization drops the `undefined`-valued property. -/
theorem c7_counterexample :
    parseJson "\x7b\x7d" = some (Json.obj []) ∧
    jGet (some (Json.obj [])) "event" = none ∧
    (handler ⟨some "sec", some "key", some "me@x.com", none⟩ "POST" "\x7b\x7d"
      (some (hmacHex "sec" "\x7b\x7d")) (fun _ => ⟨true, 200, "id"⟩)).resp.status
      = 200 ∧
    (handler ⟨some "sec", some "key", some "me@x.com", none⟩ "POST" "\x7b\x7d"
      (some (hmacHex "sec" "\x7b\x7d")) (fun _ => ⟨true, 200, "id"⟩)).resp.body
      = RBody.json (Json.obj [("ok", Json.bool true)]) ∧
    jLookup (Json.obj [("ok", Json.bool true)]) "ignored" = none := by
  have hr : (handler ⟨some "sec", some "key", some "me@x.com", none⟩ "POST"
      "\x7b\x7d" (some (hmacHex "sec" "\x7b\x7d"))
      (fun _ => ⟨true, 200, "id"⟩)).resp =
      ⟨200, RBody.json (Json.obj [("ok", Json.bool true)])⟩ := by
    unfold handler
    rw [if_neg (by simp), if_neg (by decide),
        if_neg (by simp [verify_accept, getOk]),
        (show parseJson "\x7b\x7d" = some (Json.obj []) from rfl)]
    rfl
  exact ⟨rfl, rfl, by rw [hr], by rw [hr], rfl⟩

/-- C7 (amended): an unrecognized or absent event tag is acknowledged 200
with no email dispatch; the response JSON carries `ignored` equal to the
tag when the tag is present and omits the field when the tag is absent. -/
theorem c7_unrecognized_ack (env : Env) (rawBody : String)
    (signature : Option String) (resend : EmailReq → EmailResp) (event : Json)
    (h2 : ¬ cfgMissing env = true)
    (h3 : getOk (verifyRazorpaySignature rawBody signature
            (env.webhookSecret.getD "")) = true)
    (hp : parseJson rawBody = some event)
    (hev1 : jsEqStr (jGet (some event) "event") "payment.captured" = false)
    (hev2 : jsEqStr (jGet (some event) "event") "payment_link.paid" = false) :
    (handler env "POST" rawBody signature resend).resp.status = 200 ∧
    (handler env "POST" rawBody signature resend).emails = [] ∧
    (handler env "POST" rawBody signature resend).resp.body =
      RBody.json (Json.obj ([("ok", Json.bool true)] ++
        (match jGet (some event) "event" with
         | some v => [("ignored", v)]
         | none => []))) ∧
    ∃ j, (handler env "POST" rawBody signature resend).resp.body =
        RBody.json j ∧
      jLookup j "ignored" = jGet (some event) "event" ∧
      jLookup j "ok" = some (Json.bool true) := by
  have hred : (handler env "POST" rawBody signature resend).resp =
      ⟨200, RBody.json (Json.obj ([("ok", Json.bool true)] ++
        (match jGet (some event) "event" with
         | some v => [("ignored", v)]
         | none => [])))⟩ ∧
      (handler env "POST" rawBody signature resend).emails = [] := by
    unfold handler
    rw [if_neg (by simp), if_neg h2, if_neg (by simp [h3]), hp]
    dsimp only
    rw [if_neg (by simp [hev1, hev2])]
    exact ⟨rfl, rfl⟩
  refine ⟨by rw [hred.1], hred.2, by rw [hred.1], ?_⟩
  refine ⟨_, by rw [hred.1], ?_, ?_⟩
  · cases jGet (some event) "event" <;> rfl
  · cases jGet (some event) "event" <;> rfl

/-- C7 witness (amended form): an event tagged `other.thing` is
acknowledged 200 with `ignored: "other.thing"` and no email call. -/
theorem c7_witness :
    (handler ⟨some "sec", some "key", some "me@x.com", none⟩ "POST"
      "\x7b\"event\":\"other.thing\"\x7d"
      (some (hmacHex "sec" "\x7b\"event\":\"other.thing\"\x7d"))
      (fun _ => ⟨true, 200, "id"⟩)).resp.status = 200 ∧
    (handler ⟨some "sec", some "key", some "me@x.com", none⟩ "POST"
      "\x7b\"event\":\"other.thing\"\x7d"
      (some (hmacHex "sec" "\x7b\"event\":\"other.thing\"\x7d"))
      (fun _ => ⟨true, 200, "id"⟩)).emails = [] ∧
    (handler ⟨some "sec", some "key", some "me@x.com", none⟩ "POST"
      "\x7b\"event\":\"other.thing\"\x7d"
      (some (hmacHex "sec" "\x7b\"event\":\"other.thing\"\x7d"))
      (fun _ => ⟨true, 200, "id"⟩)).resp.body =
      RBody.json (Json.obj [("ok", Json.bool true),
                            ("ignored", Json.str "other.thing")]) := by
  have h := c7_unrecognized_ack ⟨some "sec", some "key", some "me@x.com", none⟩
    "\x7b\"event\":\"other.thing\"\x7d"
    (some (hmacHex "sec" "\x7b\"event\":\"other.thing\"\x7d"))
    (fun _ => ⟨true, 200, "id"⟩)
    (Json.obj [("event", Json.str "other.thing")])
    (by decide) (by simp [verify_accept, getOk]) rfl rfl rfl
  exact ⟨h.1, h.2.1, h.2.2.1.trans rfl⟩

/-! ## Exact-match product lookup and content facts -/

theorem ratEqB_iff (a b : Rat) : ratEqB a b = true ↔ a = b := by
  constructor
  · intro h
    simp only [ratEqB, Bool.and_eq_true, beq_iff_eq] at h
    exact Rat.ext h.1 h.2
  · rintro rfl
    simp [ratEqB]

theorem jsEqNum_num_false {a n : Rat} (h : a ≠ n) :
    jsEqNum (Json.num a) n = false := by
  rw [jsEqNum, ← Bool.not_eq_true, ratEqB_iff]
  exact h

theorem strContains_self (s : String) : strContains s s = true :=
  (strContains_iff s s).mpr List.infix_rfl

/-- Anything occurring in the selected links block occurs in the generated
HTML body. -/
theorem buildEmailContent_contains_links (ap c p r : Json) (needle : String)
    (h : strContains (buildLinksHtml ap).2 needle = true) :
    strContains (buildEmailContent ap c p r).html needle = true := by
  unfold buildEmailContent
  dsimp only
  apply strContains_append_left
  apply strContains_append_left
  apply strContains_append_left
  apply strContains_append_left
  apply strContains_append_left
  apply strContains_append_right
  exact h

/-- The `${currency} ${amountRupees}` fragment occurs in the generated
HTML body. -/
theorem buildEmailContent_contains_amount (ap c p r : Json) :
    strContains (buildEmailContent ap c p r).html (amountLine ap c) = true := by
  unfold buildEmailContent
  dsimp only
  apply strContains_append_left
  apply strContains_append_left
  apply strContains_append_left
  apply strContains_append_left
  apply strContains_append_left
  apply strContains_append_left
  apply strContains_append_left
  apply strContains_append_right
  exact strContains_self _

/-- C8: the product lookup is an exact match on the amount in paise:
at 24900 the generated HTML carries both access links and the
human-readable `INR 249`; any amount other than 14900 and 24900 selects
the generic fallback block, and at the unmapped 50000 the generated HTML
carries the fallback sentence and neither product link. -/
theorem c8_exact_amount_match :
    (strContains (buildEmailContent (Json.num 24900) (Json.str "INR")
        (Json.str "pay_1") (Json.str "plink_1")).html BLUEPRINT_LINK = true ∧
     strContains (buildEmailContent (Json.num 24900) (Json.str "INR")
        (Json.str "pay_1") (Json.str "plink_1")).html COMPLETE_KIT_LINK = true ∧
     strContains (buildEmailContent (Json.num 24900) (Json.str "INR")
        (Json.str "pay_1") (Json.str "plink_1")).html "INR 249" = true) ∧
    (∀ a : Rat, a ≠ 14900 → a ≠ 24900 →
      buildLinksHtml (Json.num a) =
        ("Tactical BA Purchase", fallbackLinksHtml)) ∧
    (strContains (buildEmailContent (Json.num 50000) (Json.str "INR")
        (Json.str "pay_1") (Json.str "plink_1")).html BLUEPRINT_LINK = false ∧
     strContains (buildEmailContent (Json.num 50000) (Json.str "INR")
        (Json.str "pay_1") (Json.str "plink_1")).html COMPLETE_KIT_LINK = false ∧
     strContains (buildEmailContent (Json.num 50000) (Json.str "INR")
        (Json.str "pay_1") (Json.str "plink_1")).html
       "Thanks for your purchase. Your payment was received, but this amount doesn’t match ₹149 or ₹249."
       = true) := by
  refine ⟨⟨by with_unfolding_all rfl, by with_unfolding_all rfl,
           by with_unfolding_all rfl⟩, ?_,
          by with_unfolding_all rfl, by with_unfolding_all rfl,
          by with_unfolding_all rfl⟩
  intro a h1 h2
  rw [buildLinksHtml, PRICE_BLUEPRINT_PAISE, PRICE_COMPLETE_PAISE,
      if_neg (by simp [jsEqNum_num_false h1]),
      if_neg (by simp [jsEqNum_num_false h2])]

/-- C8 witness: at the unmapped amount 50000 the selection is the generic
fallback block. -/
theorem c8_witness :
    (50000 : Rat) ≠ 14900 ∧ (50000 : Rat) ≠ 24900 ∧
    buildLinksHtml (Json.num 50000) =
      ("Tactical BA Purchase", fallbackLinksHtml) :=
  ⟨by norm_num, by norm_num,
   c8_exact_amount_match.2.1 50000 (by norm_num) (by norm_num)⟩

/-! ## Field-extraction priority -/

/-- A JavaScript value is nullish when it is `undefined` or `null`. -/
def isNullish (v : Option Json) : Prop :=
  v = none ∨ v = some Json.null

theorem jsNullish_of_nullish {a : Option Json} (h : isNullish a)
    (b : Option Json) : jsNullish a b = b := by
  rcases h with rfl | rfl <;> rfl

theorem jsNullish_some {v : Json} (hv : v ≠ Json.null) (b : Option Json) :
    jsNullish (some v) b = some v := by
  cases v
  case null => exact absurd rfl hv
  all_goals rfl

/-- C9: the extraction priorities of the handler.  Amount and currency
come from the payment entity, falling to the payment-link entity only when
the payment field is nullish, then to the defaults `0` and `"INR"`; the
recipient is the first truthy of `payment.email`, `payment.notes.email`,
`payment_link.customer.email`, then the configured fallback; the reference
is the first non-nullish of `payment_link.reference_id`,
`payment_link.id`, `payment.order_id`, then `"NA"`; the payment id is
`payment.id`, defaulting to `"NA"`. -/
theorem c9_extraction_priority (payment paymentLink : Option Json)
    (fallbackTo : Option String) :
    (∀ v, jGet payment "amount" = some v → v ≠ Json.null →
      resolveAmount payment paymentLink = v) ∧
    (isNullish (jGet payment "amount") →
      ∀ v, jGet paymentLink "amount" = some v → v ≠ Json.null →
        resolveAmount payment paymentLink = v) ∧
    (isNullish (jGet payment "amount") →
      isNullish (jGet paymentLink "amount") →
        resolveAmount payment paymentLink = Json.num 0) ∧
    (∀ v, jGet payment "currency" = some v → v ≠ Json.null →
      resolveCurrency payment paymentLink = v) ∧
    (isNullish (jGet payment "currency") →
      ∀ v, jGet paymentLink "currency" = some v → v ≠ Json.null →
        resolveCurrency payment paymentLink = v) ∧
    (isNullish (jGet payment "currency") →
      isNullish (jGet paymentLink "currency") →
        resolveCurrency payment paymentLink = Json.str "INR") ∧
    (jsTruthy (jGet payment "email") = true →
      resolveToEmail payment paymentLink fallbackTo = jGet payment "email") ∧
    (jsTruthy (jGet payment "email") = false →
      jsTruthy (jGet (jGet payment "notes") "email") = true →
        resolveToEmail payment paymentLink fallbackTo =
          jGet (jGet payment "notes") "email") ∧
    (jsTruthy (jGet payment "email") = false →
      jsTruthy (jGet (jGet payment "notes") "email") = false →
        jsTruthy (jGet (jGet paymentLink "customer") "email") = true →
          resolveToEmail payment paymentLink fallbackTo =
            jGet (jGet paymentLink "customer") "email") ∧
    (jsTruthy (jGet payment "email") = false →
      jsTruthy (jGet (jGet payment "notes") "email") = false →
        jsTruthy (jGet (jGet paymentLink "customer") "email") = false →
          resolveToEmail payment paymentLink fallbackTo =
            fallbackTo.map Json.str) ∧
    (∀ v, jGet paymentLink "reference_id" = some v → v ≠ Json.null →
      resolveReference payment paymentLink = v) ∧
    (isNullish (jGet paymentLink "reference_id") →
      ∀ v, jGet paymentLink "id" = some v → v ≠ Json.null →
        resolveReference payment paymentLink = v) ∧
    (isNullish (jGet paymentLink "reference_id") →
      isNullish (jGet paymentLink "id") →
        ∀ v, jGet payment "order_id" = some v → v ≠ Json.null →
          resolveReference payment paymentLink = v) ∧
    (isNullish (jGet paymentLink "reference_id") →
      isNullish (jGet paymentLink "id") →
        isNullish (jGet payment "order_id") →
          resolveReference payment paymentLink = Json.str "NA") ∧
    (∀ v, jGet payment "id" = some v → v ≠ Json.null →
      resolvePaymentId payment = v) ∧
    (isNullish (jGet payment "id") →
      resolvePaymentId payment = Json.str "NA") := by
  refine ⟨?_, ?_, ?_, ?_, ?_, ?_, ?_, ?_, ?_, ?_, ?_, ?_, ?_, ?_, ?_, ?_⟩
  · intro v hv hvn
    rw [resolveAmount, hv, jsNullish_some hvn]
    rfl
  · intro h v hv hvn
    rw [resolveAmount, jsNullish_of_nullish h, hv, jsNullish_some hvn]
    rfl
  · intro h h'
    rw [resolveAmount, jsNullish_of_nullish h, jsNullish_of_nullish h']
    rfl
  · intro v hv hvn
    rw [resolveCurrency, hv, jsNullish_some hvn]
    rfl
  · intro h v hv hvn
    rw [resolveCurrency, jsNullish_of_nullish h, hv, jsNullish_some hvn]
    rfl
  · intro h h'
    rw [resolveCurrency, jsNullish_of_nullish h, jsNullish_of_nullish h']
    rfl
  · intro h1
    rw [resolveToEmail, jsOr_of_truthy h1, jsOr_of_truthy h1,
        jsOr_of_truthy h1]
  · intro h1 h2
    rw [resolveToEmail, jsOr_of_falsy h1, jsOr_of_truthy h2,
        jsOr_of_truthy h2]
  · intro h1 h2 h3
    rw [resolveToEmail, jsOr_of_falsy h1, jsOr_of_falsy h2,
        jsOr_of_truthy h3]
  · intro h1 h2 h3
    rw [resolveToEmail, jsOr_of_falsy h1, jsOr_of_falsy h2,
        jsOr_of_falsy h3]
  · intro v hv hvn
    rw [resolveReference, hv, jsNullish_some hvn]
    rfl
  · intro h v hv hvn
    rw [resolveReference, jsNullish_of_nullish h, hv, jsNullish_some hvn]
    rfl
  · intro h h' v hv hvn
    rw [resolveReference, jsNullish_of_nullish h, jsNullish_of_nullish h',
        hv, jsNullish_some hvn]
    rfl
  · intro h h' h''
    rw [resolveReference, jsNullish_of_nullish h, jsNullish_of_nullish h',
        jsNullish_of_nullish h'']
    rfl
  · intro v hv hvn
    rw [resolvePaymentId, hv, jsNullish_some hvn]
    rfl
  · intro h
    rw [resolvePaymentId, jsNullish_of_nullish h]
    rfl

/-- C9 witness: a payment entity with amount 100 and an email, next to a
payment-link entity with its own amount and id, resolves to the payment's
amount and email, the payment-link's id, and the `NA` payment-id
sentinel. -/
theorem c9_witness :
    resolveAmount (some (Json.obj [("amount", Json.num 100),
        ("email", Json.str "a@x.com")]))
      (some (Json.obj [("id", Json.str "plink_9"), ("amount", Json.num 200)]))
      = Json.num 100 ∧
    resolveToEmail (some (Json.obj [("amount", Json.num 100),
        ("email", Json.str "a@x.com")]))
      (some (Json.obj [("id", Json.str "plink_9"), ("amount", Json.num 200)]))
      (some "fb@x.com") = some (Json.str "a@x.com") ∧
    resolveReference (some (Json.obj [("amount", Json.num 100),
        ("email", Json.str "a@x.com")]))
      (some (Json.obj [("id", Json.str "plink_9"), ("amount", Json.num 200)]))
      = Json.str "plink_9" ∧
    resolvePaymentId (some (Json.obj [("amount", Json.num 100),
        ("email", Json.str "a@x.com")])) = Json.str "NA" := by
  have h := c9_extraction_priority
    (some (Json.obj [("amount", Json.num 100), ("email", Json.str "a@x.com")]))
    (some (Json.obj [("id", Json.str "plink_9"), ("amount", Json.num 200)]))
    (some "fb@x.com")
  refine ⟨h.1 (Json.num 100) rfl (fun hc => Json.noConfusion hc),
         (h.2.2.2.2.2.2.1 (by with_unfolding_all rfl)).trans rfl,
         h.2.2.2.2.2.2.2.2.2.2.2.1 (Or.inl rfl) (Json.str "plink_9") rfl
           (fun hc => Json.noConfusion hc),
         h.2.2.2.2.2.2.2.2.2.2.2.2.2.2.2 (Or.inl rfl)⟩

/-! ## The missing-amount default -/

/-- With amount 0 the rendered `${currency} ${amountRupees}` fragment is
the currency followed by ` 0`. -/
theorem amountLine_zero (c : Json) :
    amountLine (Json.num 0) c = jsToString c ++ " 0" := by
  rw [amountLine,
      show numDisplay ((jsToNumber (jsNullishJ (Json.num 0)
        (Json.num 0))).map (· / 100)) = "0" from by with_unfolding_all rfl]
  apply String.ext
  rw [String.data_append, String.data_append, String.data_append,
      List.append_assoc]
  rfl

/-- C10: when neither entity carries an amount the extracted amount is the
default 0, which matches no price point, so the generated email uses the
generic fallback block and shows the amount `0`, and the send is still
attempted when a recipient resolves. -/
theorem c10_missing_amount_defaults_zero (env : Env) (rawBody : String)
    (signature : Option String) (resend : EmailReq → EmailResp)
    (event : Json) (P PL : Option Json)
    (h2 : ¬ cfgMissing env = true)
    (h3 : getOk (verifyRazorpaySignature rawBody signature
            (env.webhookSecret.getD "")) = true)
    (hp : parseJson rawBody = some event)
    (hev : jsEqStr (jGet (some event) "event") "payment.captured" = true ∨
           jsEqStr (jGet (some event) "event") "payment_link.paid" = true)
    (hP : jGet (jGet (jGet (some event) "payload") "payment") "entity" = P)
    (hPL : jGet (jGet (jGet (some event) "payload") "payment_link") "entity"
            = PL)
    (hA1 : isNullish (jGet P "amount"))
    (hA2 : isNullish (jGet PL "amount"))
    (hto : jsTruthy (resolveToEmail P PL env.fallbackTo) = true) :
    resolveAmount P PL = Json.num 0 ∧
    (handler env "POST" rawBody signature resend).resp.status = 200 ∧
    (handler env "POST" rawBody signature resend).emails =
      [⟨env.resendApiKey.getD "", env.fromEmail.getD "",
        (resolveToEmail P PL env.fallbackTo).getD Json.null,
        (buildEmailContent (Json.num 0) (resolveCurrency P PL)
          (resolvePaymentId P) (resolveReference P PL)).subject,
        (buildEmailContent (Json.num 0) (resolveCurrency P PL)
          (resolvePaymentId P) (resolveReference P PL)).html⟩] ∧
    buildLinksHtml (Json.num 0) = ("Tactical BA Purchase", fallbackLinksHtml) ∧
    strContains (buildEmailContent (Json.num 0) (resolveCurrency P PL)
        (resolvePaymentId P) (resolveReference P PL)).html
      "Thanks for your purchase. Your payment was received, but this amount doesn’t match ₹149 or ₹249."
      = true ∧
    strContains (buildEmailContent (Json.num 0) (resolveCurrency P PL)
        (resolvePaymentId P) (resolveReference P PL)).html
      (jsToString (resolveCurrency P PL) ++ " 0") = true := by
  have hA : resolveAmount P PL = Json.num 0 := by
    rw [resolveAmount, jsNullish_of_nullish hA1, jsNullish_of_nullish hA2]
    rfl
  have hBL : buildLinksHtml (Json.num 0) =
      ("Tactical BA Purchase", fallbackLinksHtml) := by
    with_unfolding_all rfl
  have hre : (handler env "POST" rawBody signature resend).resp.status = 200 ∧
      (handler env "POST" rawBody signature resend).emails =
      [⟨env.resendApiKey.getD "", env.fromEmail.getD "",
        (resolveToEmail P PL env.fallbackTo).getD Json.null,
        (buildEmailContent (Json.num 0) (resolveCurrency P PL)
          (resolvePaymentId P) (resolveReference P PL)).subject,
        (buildEmailContent (Json.num 0) (resolveCurrency P PL)
          (resolvePaymentId P) (resolveReference P PL)).html⟩] := by
    unfold handler
    rw [if_neg (by simp), if_neg h2, if_neg (by simp [h3]), hp]
    dsimp only
    rw [if_pos (by simpa using hev), hP, hPL, if_neg (by simp [hto]), hA]
    split
    · exact ⟨rfl, rfl⟩
    · exact ⟨rfl, rfl⟩
  refine ⟨hA, hre.1, hre.2, hBL, ?_, ?_⟩
  · apply buildEmailContent_contains_links
    rw [hBL]
    with_unfolding_all rfl
  · exact amountLine_zero (resolveCurrency P PL) ▸
      buildEmailContent_contains_amount (Json.num 0) (resolveCurrency P PL)
        (resolvePaymentId P) (resolveReference P PL)

/-- C10 witness: a paid payment link with a customer email but no amount
anywhere sends one email whose content is built from amount 0. -/
theorem c10_witness :
    resolveAmount none (some (Json.obj
      [("customer", Json.obj [("email", Json.str "c@y.com")]),
       ("reference_id", Json.str "ref_7")])) = Json.num 0 ∧
    (handler ⟨some "sec", some "key", some "me@x.com", none⟩ "POST"
      "\x7b\"event\":\"payment_link.paid\",\"payload\":\x7b\"payment_link\":\x7b\"entity\":\x7b\"customer\":\x7b\"email\":\"c@y.com\"\x7d,\"reference_id\":\"ref_7\"\x7d\x7d\x7d\x7d"
      (some (hmacHex "sec"
        "\x7b\"event\":\"payment_link.paid\",\"payload\":\x7b\"payment_link\":\x7b\"entity\":\x7b\"customer\":\x7b\"email\":\"c@y.com\"\x7d,\"reference_id\":\"ref_7\"\x7d\x7d\x7d\x7d"))
      (fun _ => ⟨true, 200, "id"⟩)).resp.status = 200 ∧
    (handler ⟨some "sec", some "key", some "me@x.com", none⟩ "POST"
      "\x7b\"event\":\"payment_link.paid\",\"payload\":\x7b\"payment_link\":\x7b\"entity\":\x7b\"customer\":\x7b\"email\":\"c@y.com\"\x7d,\"reference_id\":\"ref_7\"\x7d\x7d\x7d\x7d"
      (some (hmacHex "sec"
        "\x7b\"event\":\"payment_link.paid\",\"payload\":\x7b\"payment_link\":\x7b\"entity\":\x7b\"customer\":\x7b\"email\":\"c@y.com\"\x7d,\"reference_id\":\"ref_7\"\x7d\x7d\x7d\x7d"))
      (fun _ => ⟨true, 200, "id"⟩)).emails.length = 1 ∧
    buildLinksHtml (Json.num 0) =
      ("Tactical BA Purchase", fallbackLinksHtml) := by
  have h := c10_missing_amount_defaults_zero
    ⟨some "sec", some "key", some "me@x.com", none⟩
    "\x7b\"event\":\"payment_link.paid\",\"payload\":\x7b\"payment_link\":\x7b\"entity\":\x7b\"customer\":\x7b\"email\":\"c@y.com\"\x7d,\"reference_id\":\"ref_7\"\x7d\x7d\x7d\x7d"
    (some (hmacHex "sec"
      "\x7b\"event\":\"payment_link.paid\",\"payload\":\x7b\"payment_link\":\x7b\"entity\":\x7b\"customer\":\x7b\"email\":\"c@y.com\"\x7d,\"reference_id\":\"ref_7\"\x7d\x7d\x7d\x7d"))
    (fun _ => ⟨true, 200, "id"⟩)
    (Json.obj [("event", Json.str "payment_link.paid"),
      ("payload", Json.obj [("payment_link", Json.obj [("entity", Json.obj
        [("customer", Json.obj [("email", Json.str "c@y.com")]),
         ("reference_id", Json.str "ref_7")])])])])
    none
    (some (Json.obj
      [("customer", Json.obj [("email", Json.str "c@y.com")]),
       ("reference_id", Json.str "ref_7")]))
    (by decide) (by simp [verify_accept, getOk]) rfl (Or.inr rfl) rfl rfl
    (Or.inl rfl) (Or.inl rfl) rfl
  exact ⟨h.1, h.2.1, by rw [h.2.2.1]; rfl, h.2.2.2.1⟩

end Rzp
